import Mathlib

/-!
Verification development for the LyricCloze-Gen repository.

Shallow embedding of the layout-density classifier, the style-profile
resolution for Word export, the cloze-result post-processing pipeline,
and the top-level UI state transitions, as implemented in
`src/App.tsx`, `src/services/geminiService.ts` and `src/server.js`.
Strings of the program are modelled as `List Char` where character-level
reasoning is needed, and as Lean `String` where they are opaque tokens.
-/

namespace LyricCloze

/-- Predicate for the characters matched by the regex class `[\r\n]`. -/
def isLineBreak (c : Char) : Bool := c == '\r' || c == '\n'

/-- Whitespace trimmed by JavaScript `String.prototype.trim` (the ASCII
whitespace characters: space, tab, newline, carriage return, vertical
tab, form feed). -/
def isJsWhitespace (c : Char) : Bool :=
  c == ' ' || c == '\t' || c == '\n' || c == '\r' || c.val == 11 || c.val == 12

/-- Worker for `collapseLineBreaks`: the boolean records whether the
previous character was part of a line-break run, so that each maximal
run of `[\r\n]` characters emits exactly one space. -/
def collapseAux : Bool → List Char → List Char
  | _, [] => []
  | inRun, c :: cs =>
    if isLineBreak c then
      if inRun then collapseAux true cs else ' ' :: collapseAux true cs
    else
      c :: collapseAux false cs

/-- Embeds `line.replace(/[\r\n]+/g, ' ')` from
`src/services/geminiService.ts` and `src/server.js`: every maximal run
of line-break characters is replaced by a single space. -/
def collapseLineBreaks (s : List Char) : List Char := collapseAux false s

/-- Embeds JavaScript `String.prototype.trim`: removes whitespace from
both ends of the string. -/
def trimChars (s : List Char) : List Char :=
  ((s.dropWhile isJsWhitespace).reverse.dropWhile isJsWhitespace).reverse

/-- Embeds the mapper `line => line.replace(/[\r\n]+/g, ' ').trim()`. -/
def processLine (s : List Char) : List Char := trimChars (collapseLineBreaks s)

/-- Embeds the post-processing applied to `result.lines` in
`src/services/geminiService.ts` (lines 101-108) and identically in
`src/server.js` (lines 87-95) and `src/api/generate.js`:
map each line through `processLine`, then drop the lines that became
empty (`.filter(line => line.length > 0)`). -/
def postProcessLines (ls : List (List Char)) : List (List Char) :=
  (ls.map processLine).filter (fun l => l.length > 0)

lemma mem_of_mem_dropWhile {p : Char → Bool} {c : Char} :
    ∀ {l : List Char}, c ∈ l.dropWhile p → c ∈ l := by
  intro l
  induction l with
  | nil => intro h; exact absurd h (List.not_mem_nil c)
  | cons a as ih =>
    intro h
    by_cases hpa : p a
    · rw [List.dropWhile_cons_of_pos hpa] at h
      exact List.mem_cons_of_mem a (ih h)
    · rw [List.dropWhile_cons_of_neg (by simpa using hpa)] at h
      exact h

lemma mem_of_mem_trimChars {c : Char} {s : List Char} :
    c ∈ trimChars s → c ∈ s := by
  intro h
  unfold trimChars at h
  rw [List.mem_reverse] at h
  have h1 := mem_of_mem_dropWhile h
  rw [List.mem_reverse] at h1
  exact mem_of_mem_dropWhile h1

lemma not_break_of_mem_collapseAux {c : Char} :
    ∀ (s : List Char) (b : Bool), c ∈ collapseAux b s → isLineBreak c = false := by
  intro s
  induction s with
  | nil => intro b h; exact absurd h (List.not_mem_nil c)
  | cons a as ih =>
    intro b h
    unfold collapseAux at h
    split at h
    · split at h
      · exact ih true h
      · rcases List.mem_cons.mp h with h | h
        · subst h; rfl
        · exact ih true h
    · rcases List.mem_cons.mp h with h | h
      · subst h; simp_all
      · exact ih false h

/-- C1: the client- and server-side post-processing of the generated
`lines` (collapse every `[\r\n]+` run to one space, trim, drop lines
that became empty) yields a list in which no element contains a
line-break character and no element is the empty string. -/
theorem postProcess_no_breaks_no_empty
    (ls : List (List Char)) (l : List Char) (hl : l ∈ postProcessLines ls) :
    l ≠ [] ∧ ∀ c ∈ l, isLineBreak c = false := by
  unfold postProcessLines at hl
  have hmem := List.mem_filter.mp hl
  rcases hmem with ⟨hmap, hlen⟩
  have hpos : 0 < l.length := by simpa using hlen
  constructor
  · intro hnil; rw [hnil] at hpos; simp at hpos
  · intro c hc
    rcases List.mem_map.mp hmap with ⟨a, _, ha⟩
    subst ha
    have hc2 : c ∈ collapseLineBreaks a := mem_of_mem_trimChars hc
    exact not_break_of_mem_collapseAux a false hc2

/-- Witness for C1 at the concrete input `["a\nb"]`, whose
post-processing yields the single line `"a b"`. -/
theorem postProcess_no_breaks_no_empty_witness :
    ('a' :: ' ' :: 'b' :: []) ≠ [] ∧
      ∀ c ∈ ('a' :: ' ' :: 'b' :: []), isLineBreak c = false :=
  postProcess_no_breaks_no_empty (('a' :: '\n' :: 'b' :: []) :: [])
    ('a' :: ' ' :: 'b' :: []) (by decide)

/-- Embeds the constant `CHARS_PER_VISUAL_LINE = 55` of the density
computation in `src/App.tsx`. -/
def CHARS_PER_VISUAL_LINE : Nat := 55

/-- Units contributed by one line to the visual density: `1` for an
empty line, otherwise `Math.ceil(len / 55)` (embedded over `Nat` as
`(len + 54) / 55`). -/
def lineUnits (line : List Char) : Nat :=
  if line.length == 0 then 1
  else (line.length + (CHARS_PER_VISUAL_LINE - 1)) / CHARS_PER_VISUAL_LINE

/-- Embeds the `lines.reduce(...)` density computation of the
`layoutSettings` memo in `src/App.tsx` (lines 24-30). -/
def visualDensity (lines : List (List Char)) : Nat :=
  lines.foldl
    (fun acc line =>
      if line.length == 0 then acc + 1
      else acc + (line.length + (CHARS_PER_VISUAL_LINE - 1)) / CHARS_PER_VISUAL_LINE)
    0

/-- Screen/print style profile: the mutable `settings` object of the
`layoutSettings` memo in `src/App.tsx`. -/
structure LayoutSettings where
  textSize : String
  lineHeight : String
  tracking : String
  titleSize : String
  artistSize : String
  imageSize : String
  headerMb : String
  padding : String
  colGap : String
  columnCount : String
deriving DecidableEq

/-- Embeds the default ("Balanced & Readable") settings object of
`src/App.tsx` lines 33-45. -/
def defaultSettings : LayoutSettings :=
  { textSize := "text-base", lineHeight := "leading-relaxed",
    tracking := "tracking-normal", titleSize := "text-3xl",
    artistSize := "text-xl", imageSize := "w-28 h-28", headerMb := "mb-8",
    padding := "p-[20mm]", colGap := "gap-12",
    columnCount := "columns-1 md:columns-2 print:columns-2" }

/-- Embeds the overrides applied when `visualDensity > 65`
(`src/App.tsx` lines 47-59, the "Long Content" branch). -/
def denseSettings : LayoutSettings :=
  { defaultSettings with
    textSize := "text-sm"
    lineHeight := "leading-6"
    colGap := "gap-8"
    imageSize := "w-24 h-24"
    titleSize := "text-2xl"
    artistSize := "text-lg"
    headerMb := "mb-6" }

/-- Embeds the overrides applied when `visualDensity < 25`
(`src/App.tsx` lines 60-73, the "Short Content" branch). -/
def shortSettings : LayoutSettings :=
  { defaultSettings with
    textSize := "text-lg"
    lineHeight := "leading-loose"
    tracking := "tracking-wide"
    colGap := "gap-0"
    columnCount := "max-w-2xl mx-auto"
    imageSize := "w-32 h-32"
    titleSize := "text-4xl"
    headerMb := "mb-10" }

/-- Embeds the branch structure of the `layoutSettings` memo of
`src/App.tsx`: default settings, overridden for `visualDensity > 65`
(dense) and `visualDensity < 25` (short). -/
def layoutSettings (lines : List (List Char)) : LayoutSettings :=
  if visualDensity lines > 65 then denseSettings
  else if visualDensity lines < 25 then shortSettings
  else defaultSettings

/-- Three layout tiers of the density classifier, one per branch of the
`layoutSettings` conditional. -/
inductive LayoutTier
  | dense
  | balanced
  | short
deriving DecidableEq

/-- Tier selected for a given density value, following the branch
conditions of `layoutSettings` in `src/App.tsx`. -/
def classifyDensity (d : Nat) : LayoutTier :=
  if d > 65 then .dense else if d < 25 then .short else .balanced

/-- Tier selected by the classifier for a list of lines. -/
def classify (lines : List (List Char)) : LayoutTier :=
  classifyDensity (visualDensity lines)

/-- Settings table keyed by tier; each entry is the settings object that
the corresponding branch of `layoutSettings` produces. -/
def tierSettings : LayoutTier → LayoutSettings
  | .dense => denseSettings
  | .balanced => defaultSettings
  | .short => shortSettings

/-- Looseness ordering on tiers used by the monotonicity property:
short (loosest) > balanced > dense. -/
def looseness : LayoutTier → Nat
  | .dense => 0
  | .balanced => 1
  | .short => 2

/-- Visual-density score as the specification states it: the sum over
lines of `ceil(max(1, length) / 55)`, embedded over `Nat`. -/
def specVisualScore (lines : List (List Char)) : Nat :=
  (lines.map (fun l => (max 1 l.length + 54) / 55)).sum

lemma foldl_add_eq_sum (g : List Char → Nat) :
    ∀ (l : List (List Char)) (acc : Nat),
      l.foldl (fun a x => a + g x) acc = acc + (l.map g).sum := by
  intro l
  induction l with
  | nil => intro acc; simp
  | cons x xs ih =>
    intro acc
    simp only [List.foldl_cons, List.map_cons, List.sum_cons]
    rw [ih]
    omega

lemma visualDensity_eq_sum (lines : List (List Char)) :
    visualDensity lines = (lines.map lineUnits).sum := by
  unfold visualDensity
  have hfun :
      (fun (acc : Nat) (line : List Char) =>
        if line.length == 0 then acc + 1
        else acc + (line.length + (CHARS_PER_VISUAL_LINE - 1)) / CHARS_PER_VISUAL_LINE) =
      (fun (acc : Nat) (line : List Char) => acc + lineUnits line) := by
    funext acc line
    unfold lineUnits
    split <;> rfl
  rw [hfun, foldl_add_eq_sum lineUnits lines 0]
  omega

lemma lineUnits_eq_spec (l : List Char) :
    lineUnits l = (max 1 l.length + 54) / 55 := by
  unfold lineUnits CHARS_PER_VISUAL_LINE
  rcases Nat.eq_zero_or_pos l.length with h | h
  · rw [h]; simp
  · have hmax : max 1 l.length = l.length := Nat.max_eq_right h
    rw [hmax]
    simp [Nat.pos_iff_ne_zero.mp h]

lemma layoutSettings_eq_tierSettings (lines : List (List Char)) :
    layoutSettings lines = tierSettings (classify lines) := by
  unfold layoutSettings classify classifyDensity tierSettings
  split
  · rfl
  · split <;> rfl

/-- C2: the density classifier computes the score the specification
states (sum over lines of `ceil(max(1, length)/55)`, one unit for an
empty line) and buckets it into exactly three tiers: dense when the
score exceeds 65, short when it is below 25, balanced otherwise; the
settings the code produces are exactly the selected tier's settings. -/
theorem classifier_score_and_tiers (lines : List (List Char)) :
    visualDensity lines = specVisualScore lines
    ∧ layoutSettings lines = tierSettings (classify lines)
    ∧ (classify lines = .dense ↔ visualDensity lines > 65)
    ∧ (classify lines = .short ↔ visualDensity lines < 25)
    ∧ (classify lines = .balanced ↔
        (25 ≤ visualDensity lines ∧ visualDensity lines ≤ 65)) := by
  refine ⟨?_, layoutSettings_eq_tierSettings lines, ?_, ?_, ?_⟩
  · rw [visualDensity_eq_sum]
    unfold specVisualScore
    congr 1
    exact List.map_congr_left (fun l _ => lineUnits_eq_spec l)
  all_goals
    unfold classify classifyDensity
    split_ifs with h1 h2 <;> simp_all <;> omega

lemma looseness_classifyDensity_antitone {a b : Nat} (hab : a ≤ b) :
    looseness (classifyDensity b) ≤ looseness (classifyDensity a) := by
  unfold classifyDensity
  split_ifs <;> simp [looseness] <;> omega

lemma visualDensity_append_single (L : List (List Char)) (x : List Char) :
    visualDensity (L ++ [x]) = visualDensity L + lineUnits x := by
  rw [visualDensity_eq_sum, visualDensity_eq_sum, List.map_append,
    List.sum_append]
  simp

/-- C3: the density classifier is monotonic — appending a non-empty line
never moves the result to a strictly looser tier (in the looseness
ordering short > balanced > dense). -/
theorem classify_monotone_append
    (L : List (List Char)) (x : List Char) (_hx : x ≠ []) :
    looseness (classify (L ++ [x])) ≤ looseness (classify L) := by
  unfold classify
  apply looseness_classifyDensity_antitone
  rw [visualDensity_append_single]
  omega

/-- Witness for C3: appending the line `"a"` to the empty worksheet does
not loosen the tier. -/
theorem classify_monotone_append_witness :
    looseness (classify (([] : List (List Char)) ++ [('a' :: [])])) ≤
      looseness (classify ([] : List (List Char))) :=
  classify_monotone_append [] ('a' :: []) (by decide)

/-- Decides whether `pat` occurs at the head of `l` (character lists,
used to embed JavaScript `String.prototype.includes`). -/
def leadsList : List Char → List Char → Bool
  | [], _ => true
  | _ :: _, [] => false
  | a :: as, b :: bs => a == b && leadsList as bs

/-- Decides whether `pat` occurs contiguously anywhere in the second
list. -/
def containsSeq (pat : List Char) : List Char → Bool
  | [] => leadsList pat []
  | c :: cs => leadsList pat (c :: cs) || containsSeq pat cs

/-- Embeds JavaScript `hay.includes(pat)` on strings. -/
def strIncludes (hay pat : String) : Bool := containsSeq pat.toList hay.toList

/-- Export style profile: the record returned by `getWordStyles` in
`handleExportWord` of `src/App.tsx`. -/
structure WordStyles where
  fontSize : String
  titleSize : String
  artistSize : String
  lineHeight : String
  letterSpacing : String
  margin : String
  cols : Nat
  imgDim : String
deriving DecidableEq

/-- Embeds the `sizeMap` lookup table of `getWordStyles`
(`src/App.tsx` lines 124-132). -/
def sizeMap : List (String × String) :=
  [("text-sm", "11pt"), ("text-base", "12pt"), ("text-lg", "14pt"),
   ("text-xl", "16pt"), ("text-2xl", "18pt"), ("text-3xl", "24pt"),
   ("text-4xl", "28pt")]

/-- Embeds the `lhMap` lookup table of `getWordStyles`
(`src/App.tsx` lines 139-143). -/
def lhMap : List (String × String) :=
  [("leading-6", "130%"), ("leading-relaxed", "150%"),
   ("leading-loose", "200%")]

/-- Embeds the `imgMap` lookup table of `getWordStyles`
(`src/App.tsx` lines 156-161). -/
def imgMap : List (String × String) :=
  [("w-24 h-24", "96"), ("w-28 h-28", "112"), ("w-32 h-32", "128"),
   ("w-40 h-40", "160")]

/-- Embeds `getWordStyles` of `handleExportWord` in `src/App.tsx`
(lines 122-165): each symbolic screen value is looked up in the fixed
tables, with the `|| default` fallbacks of the source; the column count
is 2 exactly when `columnCount` contains the substring `"columns-2"`. -/
def getWordStyles (settings : LayoutSettings) : WordStyles :=
  { fontSize := (sizeMap.lookup settings.textSize).getD "12pt"
    titleSize := (sizeMap.lookup settings.titleSize).getD "24pt"
    artistSize := (sizeMap.lookup settings.artistSize).getD "14pt"
    lineHeight := (lhMap.lookup settings.lineHeight).getD "150%"
    letterSpacing := if strIncludes settings.tracking "wide" then "0.5pt" else "0"
    margin := "2.54cm"
    cols := if strIncludes settings.columnCount "columns-2" then 2 else 1
    imgDim := (imgMap.lookup settings.imageSize).getD "112" }

/-- Embeds the conditional two-column directive of the exported
document's `@page Section1` style block in `src/App.tsx` line 183:
the interpolation emits `mso-columns: <n> even 0.5in;` when
`styles.cols > 1` and the empty string otherwise. -/
def msoColumnsClause (cols : Nat) : String :=
  if cols > 1 then "mso-columns: " ++ toString cols ++ " even 0.5in;" else ""

lemma lineUnits_eq_one_of_le (l : List Char) (h : l.length ≤ 55) :
    lineUnits l = 1 := by
  unfold lineUnits CHARS_PER_VISUAL_LINE
  rcases Nat.eq_zero_or_pos l.length with h0 | h0
  · rw [h0]; rfl
  · have hne : l.length ≠ 0 := Nat.pos_iff_ne_zero.mp h0
    simp only [beq_iff_eq, hne, if_false]
    omega

lemma visualDensity_eq_length_of_short (lines : List (List Char))
    (h : ∀ l ∈ lines, l.length ≤ 55) :
    visualDensity lines = lines.length := by
  rw [visualDensity_eq_sum]
  induction lines with
  | nil => rfl
  | cons x xs ih =>
    simp only [List.map_cons, List.sum_cons, List.length_cons]
    rw [lineUnits_eq_one_of_le x (h x (List.mem_cons_self x xs)),
      ih (fun l hl => h l (List.mem_cons_of_mem x hl))]
    omega

lemma getWordStyles_by_tier :
    getWordStyles denseSettings =
      { fontSize := "11pt", titleSize := "18pt", artistSize := "14pt",
        lineHeight := "130%", letterSpacing := "0", margin := "2.54cm",
        cols := 2, imgDim := "96" }
    ∧ getWordStyles defaultSettings =
      { fontSize := "12pt", titleSize := "24pt", artistSize := "16pt",
        lineHeight := "150%", letterSpacing := "0", margin := "2.54cm",
        cols := 2, imgDim := "112" }
    ∧ getWordStyles shortSettings =
      { fontSize := "14pt", titleSize := "28pt", artistSize := "16pt",
        lineHeight := "200%", letterSpacing := "0.5pt", margin := "2.54cm",
        cols := 1, imgDim := "128" } := by
  refine ⟨?_, ?_, ?_⟩ <;> decide

/-- C4: the exported document's page style carries the `mso-columns`
two-column directive exactly when the resolved column count is 2, which
holds for every tier except the short tier; and for 10 lines each under
20 characters the classifier selects the short tier, so the directive
is absent. -/
theorem export_columns_directive (lines : List (List Char)) :
    (msoColumnsClause (getWordStyles (layoutSettings lines)).cols ≠ ""
      ↔ (getWordStyles (layoutSettings lines)).cols = 2)
    ∧ ((getWordStyles (layoutSettings lines)).cols = 2
      ↔ classify lines ≠ LayoutTier.short)
    ∧ (lines.length = 10 → (∀ l ∈ lines, l.length < 20) →
        classify lines = LayoutTier.short
        ∧ msoColumnsClause (getWordStyles (layoutSettings lines)).cols = "") := by
  rw [layoutSettings_eq_tierSettings]
  refine ⟨?_, ?_, ?_⟩
  · cases h : classify lines <;> simp [h, tierSettings] <;> decide
  · cases h : classify lines <;> simp [h, tierSettings] <;> decide
  · intro hlen hshortlines
    have hvd : visualDensity lines = 10 := by
      rw [visualDensity_eq_length_of_short lines
        (fun l hl => Nat.le_of_lt (Nat.lt_of_lt_of_le (hshortlines l hl) (by omega))),
        hlen]
    have hcl : classify lines = LayoutTier.short := by
      unfold classify classifyDensity
      rw [hvd]
      rfl
    rw [hcl]
    exact ⟨rfl, by decide⟩

/-- Witness for C4 at 10 concrete one-character lines: the classifier
picks the short tier and the directive is absent. -/
theorem export_columns_directive_witness :
    classify (List.replicate 10 ('a' :: [])) = LayoutTier.short
    ∧ msoColumnsClause
        (getWordStyles (layoutSettings (List.replicate 10 ('a' :: [])))).cols = "" :=
  (export_columns_directive (List.replicate 10 ('a' :: []))).2.2
    (by decide) (by decide)

/-- Character class kept by the regex `/[^a-z0-9]/gi` in
`handleExportWord` of `src/App.tsx`: ASCII letters of either case and
digits (the `i` flag makes `a-z` case-insensitive). -/
def isAsciiAlphanum (c : Char) : Bool :=
  ('a' ≤ c && c ≤ 'z') || ('A' ≤ c && c ≤ 'Z') || ('0' ≤ c && c ≤ '9')

/-- Embeds `title.replace(/[^a-z0-9]/gi, '_')`: every character outside
the kept class is replaced by an underscore. -/
def replaceNonAlnum (c : Char) : Char :=
  if isAsciiAlphanum c then c else '_'

/-- Embeds the suggested download filename of `handleExportWord` in
`src/App.tsx` (line 236):
`` `${songData.title.replace(/[^a-z0-9]/gi, '_')}_cloze.doc` ``. -/
def exportFilename (title : List Char) : List Char :=
  (title.map replaceNonAlnum) ++ "_cloze.doc".toList

/-- Modelled from the spec wording of C5 for comparison with the code:
the title with all characters outside `[a-zA-Z0-9]` stripped and the
survivors lowercased. -/
def specCleanTitle (t : List Char) : List Char :=
  (t.filter isAsciiAlphanum).map Char.toLower

/-- Formalisation of claim C5 as stated: for some fixed default name and
fixed suffix, every title's suggested filename is the stripped-and-
lowercased title (or the default when the title is empty) followed by
the suffix. -/
def filenameClaim : Prop :=
  ∃ dflt sfx : List Char, ∀ t : List Char,
    exportFilename t = (if t = [] then dflt else specCleanTitle t) ++ sfx

/-- Counterexample for C5: the code's filename derivation is not of the
form the claim states. The titles `"a"` and `"A!"` have the same
stripped-and-lowercased form `"a"`, yet the code produces the distinct
filenames `"a_cloze.doc"` and `"A__cloze.doc"` (the code replaces
disallowed characters with underscores instead of stripping them, and
does not lowercase). -/
theorem filenameClaim_false : ¬ filenameClaim := by
  intro hclaim
  rcases hclaim with ⟨dflt, sfx, h⟩
  have h1 := h ('a' :: [])
  have h2 := h ('A' :: '!' :: [])
  rw [if_neg (by decide), show specCleanTitle ('a' :: []) = 'a' :: [] from by decide]
    at h1
  rw [if_neg (by decide), show specCleanTitle ('A' :: '!' :: []) = 'a' :: [] from by decide]
    at h2
  have heq : exportFilename ('a' :: []) = exportFilename ('A' :: '!' :: []) :=
    h1.trans h2.symm
  have hne : exportFilename ('a' :: []) ≠ exportFilename ('A' :: '!' :: []) := by
    decide
  exact hne heq

lemma getD_map_comm (f : Char → Char) (hf : f '_' = '_') :
    ∀ (t : List Char) (i : Nat), (t.map f).getD i '_' = f (t.getD i '_') := by
  intro t
  induction t with
  | nil => intro i; simp [List.getD, hf]
  | cons a as ih =>
    intro i
    cases i with
    | zero => rfl
    | succ n =>
      simp only [List.map_cons, List.getD_cons_succ]
      exact ih n

/-- C5 amended: the suggested filename is the title with each character
outside `[a-zA-Z0-9]` replaced by an underscore (case preserved, no
empty-title fallback), followed by the fixed suffix `"_cloze.doc"`; the
stem has the same length as the title and agrees with it exactly at the
alphanumeric positions. -/
theorem exportFilename_spec (t : List Char) :
    ∃ stem : List Char,
      exportFilename t = stem ++ "_cloze.doc".toList
      ∧ stem.length = t.length
      ∧ ∀ i : Nat, stem.getD i '_' =
          (if isAsciiAlphanum (t.getD i '_') then t.getD i '_' else '_') := by
  refine ⟨t.map replaceNonAlnum, rfl, List.length_map t replaceNonAlnum, ?_⟩
  intro i
  rw [getD_map_comm replaceNonAlnum (by decide) t i]
  rfl

/-- Embeds the `SongData` interface of `src/types.ts`. -/
structure SongData where
  title : List Char
  artist : List Char
  originalLyrics : List Char
  coverImage : Option (List Char)
deriving DecidableEq

/-- Embeds the `ClozeResult` interface of `src/types.ts`. -/
structure ClozeResult where
  lines : List (List Char)
  answerKey : List (List Char)
deriving DecidableEq

/-- Embeds the `AppState` enum of `src/types.ts`. -/
inductive AppState
  | IDLE
  | GENERATING
  | READY
  | ERROR
deriving DecidableEq

/-- Initial `SongData` value of the `useState` initialiser in
`src/App.tsx` (lines 7-12). -/
def initialSongData : SongData :=
  { title := [], artist := [], originalLyrics := [], coverImage := none }

/-- Combined component state of `src/App.tsx`: the four `useState`
hooks `appState`, `songData`, `result`, `error`. -/
structure AppModel where
  appState : AppState
  songData : SongData
  result : Option ClozeResult
  error : Option String
deriving DecidableEq

/-- Outcome of the awaited `generateClozeGame` network call, supplied
as an oracle since the call itself is external. -/
inductive GenOutcome
  | success (r : ClozeResult)
  | failure
deriving DecidableEq

/-- Embeds `handleSubmit` of `src/App.tsx` (lines 94-112): when the
trimmed lyrics are empty, set the validation error and return without
touching any other state; otherwise enter `GENERATING`, clear the
error, invoke the network call, and settle to `READY` with the new
result or to `ERROR` with the fixed failure message. The boolean of
the pair records whether `generateClozeGame` was invoked. -/
def handleSubmit (m : AppModel) (gen : GenOutcome) : AppModel × Bool :=
  if trimChars m.songData.originalLyrics = [] then
    ({ m with error := some "Please enter lyrics." }, false)
  else
    let m1 : AppModel := { m with appState := .GENERATING, error := none }
    match gen with
    | .success r => ({ m1 with result := some r, appState := .READY }, true)
    | .failure =>
        ({ m1 with
            error := some "Failed to generate the game. Please try again."
            appState := .ERROR }, true)

/-- Embeds `handleReset` of `src/App.tsx` (lines 239-242): it sets
`appState` to `IDLE` and clears `result`, and touches nothing else. -/
def handleReset (m : AppModel) : AppModel :=
  { m with appState := .IDLE, result := none }

lemma dropWhile_eq_nil_of_all {p : Char → Bool} :
    ∀ {l : List Char}, (∀ c ∈ l, p c = true) → l.dropWhile p = [] := by
  intro l
  induction l with
  | nil => intro _; rfl
  | cons a as ih =>
    intro h
    rw [List.dropWhile_cons_of_pos (h a (List.mem_cons_self a as))]
    exact ih (fun c hc => h c (List.mem_cons_of_mem a hc))

lemma trimChars_eq_nil_of_all_whitespace {s : List Char}
    (h : ∀ c ∈ s, isJsWhitespace c = true) : trimChars s = [] := by
  unfold trimChars
  rw [dropWhile_eq_nil_of_all h]
  rfl

/-- C6: submitting with lyrics that are empty or all whitespace issues
no network call, sets the error to exactly "Please enter lyrics.", and
leaves `AppState`, `SongData` and the stored result unchanged. -/
theorem handleSubmit_blank_lyrics (m : AppModel) (gen : GenOutcome)
    (h : ∀ c ∈ m.songData.originalLyrics, isJsWhitespace c = true) :
    (handleSubmit m gen).2 = false
    ∧ (handleSubmit m gen).1.error = some "Please enter lyrics."
    ∧ (handleSubmit m gen).1.appState = m.appState
    ∧ (handleSubmit m gen).1.songData = m.songData
    ∧ (handleSubmit m gen).1.result = m.result := by
  unfold handleSubmit
  rw [if_pos (trimChars_eq_nil_of_all_whitespace h)]
  exact ⟨rfl, rfl, rfl, rfl, rfl⟩

/-- Concrete model used by the C6 witness: idle app whose lyrics field
holds a single space. -/
def blankLyricsModel : AppModel :=
  { appState := .IDLE
    songData :=
      { title := [], artist := [], originalLyrics := ' ' :: [],
        coverImage := none }
    result := none
    error := none }

/-- Witness for C6 at a model whose lyrics are a single space. -/
theorem handleSubmit_blank_lyrics_witness :
    (handleSubmit blankLyricsModel GenOutcome.failure).2 = false
    ∧ (handleSubmit blankLyricsModel GenOutcome.failure).1.error =
        some "Please enter lyrics."
    ∧ (handleSubmit blankLyricsModel GenOutcome.failure).1.appState =
        blankLyricsModel.appState
    ∧ (handleSubmit blankLyricsModel GenOutcome.failure).1.songData =
        blankLyricsModel.songData
    ∧ (handleSubmit blankLyricsModel GenOutcome.failure).1.result =
        blankLyricsModel.result :=
  handleSubmit_blank_lyrics blankLyricsModel GenOutcome.failure (by decide)

/-- Concrete model used by the C9 counterexample: a worksheet in the
`READY` state with non-empty song data. -/
def filledModel : AppModel :=
  { appState := .READY
    songData :=
      { title := 'T' :: [], artist := [], originalLyrics := 'x' :: [],
        coverImage := none }
    result := some { lines := ('x' :: []) :: [], answerKey := [] }
    error := none }

/-- Counterexample for C9: resetting a model whose title is `"T"` does
not restore `SongData` to its initial empty value — `handleReset` only
touches `appState` and `result`. -/
theorem handleReset_keeps_songData :
    (handleReset filledModel).songData ≠ initialSongData := by
  decide

/-- C9 amended: `handleReset` sets `AppState` to `IDLE` and clears the
stored `ClozeResult`, leaving `SongData` and the error message
unchanged. -/
theorem handleReset_spec (m : AppModel) :
    (handleReset m).appState = AppState.IDLE
    ∧ (handleReset m).result = none
    ∧ (handleReset m).songData = m.songData
    ∧ (handleReset m).error = m.error :=
  ⟨rfl, rfl, rfl, rfl⟩

/-- C10: when the generation call fails on a submission with non-blank
lyrics, the stored result and `SongData` are unchanged; only the error
message and `AppState` (now `ERROR`) change. -/
theorem handleSubmit_failure_atomic (m : AppModel)
    (h : trimChars m.songData.originalLyrics ≠ []) :
    (handleSubmit m GenOutcome.failure).1.result = m.result
    ∧ (handleSubmit m GenOutcome.failure).1.songData = m.songData
    ∧ (handleSubmit m GenOutcome.failure).1.appState = AppState.ERROR
    ∧ (handleSubmit m GenOutcome.failure).1.error =
        some "Failed to generate the game. Please try again."
    ∧ (handleSubmit m GenOutcome.failure).2 = true := by
  unfold handleSubmit
  rw [if_neg h]
  exact ⟨rfl, rfl, rfl, rfl, rfl⟩

/-- Witness for C10 at the concrete filled model. -/
theorem handleSubmit_failure_atomic_witness :
    (handleSubmit filledModel GenOutcome.failure).1.result = filledModel.result
    ∧ (handleSubmit filledModel GenOutcome.failure).1.songData =
        filledModel.songData
    ∧ (handleSubmit filledModel GenOutcome.failure).1.appState = AppState.ERROR
    ∧ (handleSubmit filledModel GenOutcome.failure).1.error =
        some "Failed to generate the game. Please try again."
    ∧ (handleSubmit filledModel GenOutcome.failure).2 = true :=
  handleSubmit_failure_atomic filledModel (by decide)

/-- Settings record carrying a text size with no entry in `sizeMap`,
used to exercise the fallback path of `getWordStyles`. -/
def unmappedSettings : LayoutSettings :=
  { defaultSettings with textSize := "text-9xl" }

/-- Counterexample for C7: an unmapped screen value is not treated as a
configuration error — `sizeMap` has no entry for `"text-9xl"`, yet
`getWordStyles` silently substitutes the default `"12pt"` and returns a
record indistinguishable from the one produced for the mapped default
value `"text-base"`; nothing records which value was unmapped and no
development-mode failure path exists in the code. -/
theorem getWordStyles_silently_defaults :
    sizeMap.lookup "text-9xl" = none
    ∧ (getWordStyles unmappedSettings).fontSize = "12pt"
    ∧ getWordStyles unmappedSettings = getWordStyles defaultSettings := by
  refine ⟨?_, ?_, ?_⟩ <;> decide

/-- C7 amended: every screen-profile value actually produced by
`layoutSettings` (in any tier) has an entry in the export unit lookup
tables, so the silent `|| default` fallbacks never fire for
renderer-produced settings; an unmapped value, however, would be
silently replaced by a fixed default with no record. -/
theorem export_tables_cover_renderer_values (lines : List (List Char)) :
    (sizeMap.lookup (layoutSettings lines).textSize).isSome = true
    ∧ (sizeMap.lookup (layoutSettings lines).titleSize).isSome = true
    ∧ (sizeMap.lookup (layoutSettings lines).artistSize).isSome = true
    ∧ (lhMap.lookup (layoutSettings lines).lineHeight).isSome = true
    ∧ (imgMap.lookup (layoutSettings lines).imageSize).isSome = true := by
  unfold layoutSettings
  split
  · decide
  · split <;> decide

/-- Point value of the font-size strings appearing in `sizeMap`, used to
state that a given mapping is the smallest of the table. -/
def ptVal : String → Nat
  | "11pt" => 11
  | "12pt" => 12
  | "14pt" => 14
  | "16pt" => 16
  | "18pt" => 18
  | "24pt" => 24
  | "28pt" => 28
  | _ => 0

/-- C8: for 80 non-empty lines of at most 55 characters (about 40
characters each), the classifier selects the dense tier, the exported
document's body font size is `"11pt"` — the smallest mapping present in
`sizeMap` — and the resolved column count is 2, so the two-column
directive is emitted. -/
theorem dense_scenario_export (lines : List (List Char))
    (hlen : lines.length = 80)
    (hmid : ∀ l ∈ lines, 1 ≤ l.length ∧ l.length ≤ 55) :
    classify lines = LayoutTier.dense
    ∧ (getWordStyles (layoutSettings lines)).fontSize = "11pt"
    ∧ (∀ v ∈ sizeMap.map Prod.snd, ptVal "11pt" ≤ ptVal v)
    ∧ (getWordStyles (layoutSettings lines)).cols = 2
    ∧ msoColumnsClause (getWordStyles (layoutSettings lines)).cols ≠ "" := by
  have hvd : visualDensity lines = 80 := by
    rw [visualDensity_eq_length_of_short lines (fun l hl => (hmid l hl).2), hlen]
  have hcl : classify lines = LayoutTier.dense := by
    unfold classify classifyDensity
    rw [hvd]
    rfl
  have hls : layoutSettings lines = denseSettings := by
    rw [layoutSettings_eq_tierSettings, hcl]
    rfl
  rw [hls]
  exact ⟨hcl, by decide, by decide, by decide, by decide⟩

/-- Witness for C8 at 80 concrete lines of 40 characters each. -/
theorem dense_scenario_export_witness :
    classify (List.replicate 80 (List.replicate 40 'a')) = LayoutTier.dense
    ∧ (getWordStyles
        (layoutSettings (List.replicate 80 (List.replicate 40 'a')))).fontSize =
        "11pt" := by
  have h := dense_scenario_export (List.replicate 80 (List.replicate 40 'a'))
    (by simp) (by
      intro l hl
      rw [List.eq_of_mem_replicate hl]
      simp)
  exact ⟨h.1, h.2.1⟩

end LyricCloze
